import Mathlib

/-!
Verification of the HR-Helper recruitment backend: a shallow embedding of the
matching engine, the resume-intelligence pipeline, and the in-memory vector
store, with theorems checking the natural-language specification against the
code.  Python floats are idealised as real numbers, Python strings as `String`,
Python dicts as association lists or structures with optional fields (a `.get`
with a default becomes `Option.getD`), and Python exceptions as `Except`
results.  External AI services (text generation, embedding, JSON decoding)
are abstracted as function parameters, so every theorem quantifies over all
possible service behaviours.
-/

namespace HRHelper

/-! ### Matching engine: distance-to-score conversion
Source: `src/app/services/matching_service.py`, `_distance_to_score`. -/

/-- Embedding of `_distance_to_score`:
`return max(0.0, min(1.0, 1.0 - distance / 2))`. -/
noncomputable def distance_to_score (distance : ℝ) : ℝ :=
  max 0 (min 1 (1 - distance / 2))

/-- The clamp function as the spec words it: `clamp(x, lo, hi)` restricts
`x` into the interval `[lo, hi]`.  Used only to compare the code against
the specification sentence. -/
noncomputable def clamp_spec (lo hi x : ℝ) : ℝ :=
  max lo (min hi x)

/-! ### Embedding generator: resume text synthesis
Source: `src/app/services/embedding_service.py`, `_build_resume_text`. -/

/-- One entry of the `experience` list of a parsed-resume dict; every field is
optional because `_build_resume_text` reads them with `dict.get` defaults. -/
structure ExperienceEntry where
  title : Option String := none
  company : Option String := none
  description : Option String := none
deriving DecidableEq, Repr

/-- One entry of the `education` list of a parsed-resume dict. -/
structure EducationEntry where
  degree : Option String := none
  field : Option String := none
  institution : Option String := none
deriving DecidableEq, Repr

/-- The shape of the dict consumed by `_build_resume_text`: exactly the four
keys the function reads (`summary`, `skills`, `experience`, `education`),
with `dict.get` defaults mirrored by `Option`/list defaults. -/
structure ParsedResumeDict where
  summary : Option String := none
  skills : List String := []
  experience : List ExperienceEntry := []
  education : List EducationEntry := []
deriving DecidableEq, Repr

/-- Python truthiness of an optional string: `None` and the empty string are
falsy, every other string is truthy. -/
def truthyStr (s : Option String) : Bool :=
  match s with
  | none => false
  | some t => !(t == "")

/-- Embedding of the experience-line construction inside `_build_resume_text`:
`line = f"TITLE at COMPANY"` followed by
`if exp.get("description"): line += f" DASH DESCRIPTION"`. -/
def experienceLine (e : ExperienceEntry) : String :=
  let line := e.title.getD "" ++ " at " ++ e.company.getD ""
  if truthyStr e.description then line ++ " — " ++ e.description.getD "" else line

/-- Embedding of the education-line construction inside `_build_resume_text`:
`line = f"DEGREE in FIELD from INSTITUTION"`. -/
def educationLine (e : EducationEntry) : String :=
  e.degree.getD "" ++ " in " ++ e.field.getD "" ++ " from " ++ e.institution.getD ""

/-- Embedding of `_build_resume_text`: collect the summary (if truthy), the
skills line (if the skills list is non-empty), one line per experience entry
and one line per education entry, join them with newlines, and fall back to
the fixed placeholder when no part was produced. -/
def build_resume_text (d : ParsedResumeDict) : String :=
  let parts : List String :=
    (if truthyStr d.summary then [d.summary.getD ""] else [])
      ++ (if d.skills.isEmpty then [] else ["Skills: " ++ String.intercalate ", " d.skills])
      ++ d.experience.map experienceLine
      ++ d.education.map educationLine
  if parts.isEmpty then "No resume data available" else String.intercalate "\n" parts

/-- The lines of the synthesized resume text as the claim describes them:
summary line first (when present and non-empty), then the skills line when
skills is non-empty, then one line per experience entry, then one line per
education entry.  Stated independently of `build_resume_text` to compare the
code against the specification sentence. -/
def claimResumeLines (d : ParsedResumeDict) : List String :=
  (match d.summary with
    | some s => if s = "" then [] else [s]
    | none => [])
    ++ (match d.skills with
      | [] => []
      | sk => ["Skills: " ++ String.intercalate ", " sk])
    ++ d.experience.map experienceLine
    ++ d.education.map educationLine

/-- The concrete parsed-resume input of claim C2. -/
def exampleParsedDict : ParsedResumeDict :=
  { summary := some "S"
    skills := ["Python", "FastAPI"]
    experience := [{ title := some "Dev", company := some "Acme", description := some "Built APIs" }]
    education := [{ degree := some "BS", field := some "CS", institution := some "MIT" }] }

/-- Auxiliary: the parts list assembled inside `build_resume_text` coincides
with the lines described by the specification. -/
theorem build_parts_eq (d : ParsedResumeDict) :
    (if truthyStr d.summary then [d.summary.getD ""] else [])
      ++ (if d.skills.isEmpty then [] else ["Skills: " ++ String.intercalate ", " d.skills])
      ++ d.experience.map experienceLine
      ++ d.education.map educationLine = claimResumeLines d := by
  unfold claimResumeLines truthyStr
  cases d.summary with
  | none => cases d.skills <;> simp
  | some t =>
    by_cases ht : t = "" <;> cases d.skills <;> simp [ht]

/-- C1: the matching engine converts a cosine distance `d` to a score equal to
`clamp(1 - d/2, 0, 1)`; in particular `score(0)=1`, `score(2)=0`,
`score(1)=0.5`, `score(3)=0`, `score(-0.5)=1`, and the conversion is
monotonically non-increasing in the distance. -/
theorem distance_to_score_spec :
    (∀ d : ℝ, distance_to_score d = clamp_spec 0 1 (1 - d / 2))
    ∧ distance_to_score 0 = 1
    ∧ distance_to_score 2 = 0
    ∧ distance_to_score 1 = 1 / 2
    ∧ distance_to_score 3 = 0
    ∧ distance_to_score (-(1 / 2)) = 1
    ∧ ∀ d e : ℝ, d ≤ e → distance_to_score e ≤ distance_to_score d := by
  refine ⟨fun d => rfl, by norm_num [distance_to_score], by norm_num [distance_to_score],
    by norm_num [distance_to_score], by norm_num [distance_to_score],
    by norm_num [distance_to_score], ?_⟩
  intro d e h
  unfold distance_to_score
  exact max_le_max le_rfl (min_le_min le_rfl (by linarith))

/-- C1 witness: the monotonicity clause applied at the concrete distances
`0 ≤ 1`. -/
theorem distance_to_score_spec_witness :
    (0 : ℝ) ≤ 1 ∧ distance_to_score 1 ≤ distance_to_score 0 :=
  ⟨by norm_num, distance_to_score_spec.2.2.2.2.2.2 0 1 (by norm_num)⟩

/-- C2: `_build_resume_text` produces the summary line first (when truthy),
then the skills line when skills is non-empty, then one line per experience
entry (with the em-dash description suffix when present), then one line per
education entry, joined by newlines; the concrete example of the claim yields
exactly the four expected lines, and an input producing no parts yields
exactly the placeholder string. -/
theorem build_resume_text_spec :
    (∀ d : ParsedResumeDict,
      build_resume_text d =
        if claimResumeLines d = [] then "No resume data available"
        else String.intercalate "\n" (claimResumeLines d))
    ∧ build_resume_text exampleParsedDict =
        "S\nSkills: Python, FastAPI\nDev at Acme — Built APIs\nBS in CS from MIT"
    ∧ (∀ d : ParsedResumeDict,
      claimResumeLines d = [] → build_resume_text d = "No resume data available") := by
  have key : ∀ d : ParsedResumeDict,
      build_resume_text d =
        if claimResumeLines d = [] then "No resume data available"
        else String.intercalate "\n" (claimResumeLines d) := by
    intro d
    unfold build_resume_text
    rw [build_parts_eq]
    rcases h : claimResumeLines d with _ | ⟨a, l⟩ <;> simp
  refine ⟨key, by decide, ?_⟩
  intro d h
  rw [key d, if_pos h]

/-- C2 witness: the no-parts clause applied to the all-defaults dict. -/
theorem build_resume_text_spec_witness :
    claimResumeLines {} = []
    ∧ build_resume_text {} = "No resume data available" :=
  ⟨rfl, build_resume_text_spec.2.2 {} rfl⟩

/-! ### Matching engine: explanation generation
Source: `src/app/services/matching_service.py`, `_generate_explanations`.
The Gemini call and `json.loads` are external; the response text and the JSON
decoder are abstracted as parameters, so the theorems quantify over every
possible service response and every possible decoder behaviour. -/

/-- A Python JSON value, as produced by `json.loads`. -/
inductive PyJson where
  | null
  | bool (b : Bool)
  | num (q : ℚ)
  | str (s : String)
  | arr (items : List PyJson)
  | obj (fields : List (String × PyJson))

/-- The fixed fallback explanation string of `_generate_explanations`. -/
def noExplanation : PyJson :=
  PyJson.str "No explanation available."

/-- Embedding of `response.text or "[]"`: a missing or empty response text is
replaced by the empty-array literal before decoding. -/
def rawResponseText (responseText : Option String) : String :=
  match responseText with
  | none => "[]"
  | some s => if s = "" then "[]" else s

/-- Embedding of `_generate_explanations`, with its AI call abstracted: the
first component is the returned explanation list, the second the number of
outbound service calls made.  An empty match list returns immediately;
otherwise the decoded response is repaired to exactly one entry per match
(pad with the fallback, truncate excess), and decode failures or non-list
values yield the all-fallback list — the function is total, so no exception
reaches the caller. -/
def generate_explanations (jsonLoads : String → Except Unit PyJson)
    (responseText : Option String) (matchTexts : List String) :
    List PyJson × Nat :=
  if matchTexts = [] then ([], 0)
  else
    let result :=
      match jsonLoads (rawResponseText responseText) with
      | Except.ok (PyJson.arr items) =>
          (items ++ List.replicate (matchTexts.length - items.length) noExplanation).take
            matchTexts.length
      | Except.ok _ => List.replicate matchTexts.length noExplanation
      | Except.error _ => List.replicate matchTexts.length noExplanation
    (result, 1)

/-- Auxiliary: the non-empty case of `generate_explanations`, written as an
explicit match on the decode outcome. -/
theorem generate_explanations_eq (f : String → Except Unit PyJson)
    (r : Option String) (ts : List String) (hts : ts ≠ []) :
    generate_explanations f r ts =
      ((match f (rawResponseText r) with
        | Except.ok (PyJson.arr items) =>
            (items ++ List.replicate (ts.length - items.length) noExplanation).take ts.length
        | Except.ok _ => List.replicate ts.length noExplanation
        | Except.error _ => List.replicate ts.length noExplanation), 1) := by
  unfold generate_explanations
  rw [if_neg hts]

/-- C3: `_generate_explanations` returns an empty list with no service call
for an empty match list; otherwise it makes exactly one call and, whatever
the decode outcome (error, non-list value, list of any length), returns
exactly one explanation per match, padding with the fallback string and
truncating excess — never raising to the caller. -/
theorem generate_explanations_spec :
    (∀ (f : String → Except Unit PyJson) (r : Option String),
      generate_explanations f r [] = ([], 0))
    ∧ ∀ (f : String → Except Unit PyJson) (r : Option String) (ts : List String),
        ts ≠ [] →
        (generate_explanations f r ts).2 = 1
        ∧ ((generate_explanations f r ts).1).length = ts.length
        ∧ (∀ items, f (rawResponseText r) = Except.ok (PyJson.arr items) →
            (generate_explanations f r ts).1 =
              (items ++ List.replicate (ts.length - items.length) noExplanation).take ts.length)
        ∧ (∀ j, f (rawResponseText r) = Except.ok j → (∀ items, j ≠ PyJson.arr items) →
            (generate_explanations f r ts).1 = List.replicate ts.length noExplanation)
        ∧ (∀ e, f (rawResponseText r) = Except.error e →
            (generate_explanations f r ts).1 = List.replicate ts.length noExplanation) := by
  refine ⟨fun f r => rfl, ?_⟩
  intro f r ts hts
  rw [generate_explanations_eq f r ts hts]
  refine ⟨rfl, ?_, ?_, ?_, ?_⟩
  · rcases hf : f (rawResponseText r) with e | j
    · simp [hf]
    · cases j
      all_goals simp [hf]
      all_goals omega
  · intro items hf
    simp [hf]
  · intro j hf hne
    cases j with
    | arr items => exact absurd rfl (hne items)
    | null => simp [hf]
    | bool b => simp [hf]
    | num q => simp [hf]
    | str s => simp [hf]
    | obj fields => simp [hf]
  · intro e hf
    simp [hf]

/-- C3 witness: the non-empty clause applied to a one-element match list and
an always-failing decoder. -/
theorem generate_explanations_spec_witness :
    (["a"] : List String) ≠ []
    ∧ (generate_explanations (fun _ => (Except.error () : Except Unit PyJson)) none ["a"]).2 = 1 :=
  ⟨by decide,
    (generate_explanations_spec.2 (fun _ => (Except.error () : Except Unit PyJson)) none ["a"]
      (by decide)).1⟩

/-! ### Resume schema and resume service
Sources: `src/app/schemas/parsed_resume.py` and
`src/app/services/resume_service.py`. -/

/-- Embedding of the `WorkExperience` pydantic model: `company` and `title`
are required strings, the remaining fields default to null. -/
structure WorkExperience where
  company : String
  title : String
  start_date : Option String := none
  end_date : Option String := none
  description : Option String := none
deriving DecidableEq, Repr

/-- Embedding of the `Education` pydantic model. -/
structure Education where
  institution : String
  degree : Option String := none
  field : Option String := none
  year : Option String := none
deriving DecidableEq, Repr

/-- Embedding of the `ParsedResumeData` pydantic model with its defaults:
null scalars and empty lists. -/
structure ParsedResumeData where
  full_name : Option String := none
  email : Option String := none
  phone : Option String := none
  summary : Option String := none
  skills : List String := []
  experience : List WorkExperience := []
  education : List Education := []
  languages : List String := []
  certifications : List String := []
deriving DecidableEq, Repr

/-- `ParsedResumeData()`: the record with every field at its default. -/
def emptyParsedResumeData : ParsedResumeData :=
  { full_name := none, email := none, phone := none, summary := none,
    skills := [], experience := [], education := [], languages := [],
    certifications := [] }

/-- The projection of `ParsedResumeData.model_dump()` onto the four keys read
by `_build_resume_text` (the other keys of the dumped dict are never read by
the code under verification). -/
def dumpDict (p : ParsedResumeData) : ParsedResumeDict :=
  { summary := p.summary
    skills := p.skills
    experience := p.experience.map fun w =>
      { title := some w.title, company := some w.company, description := w.description }
    education := p.education.map fun e =>
      { degree := e.degree, field := e.field, institution := some e.institution } }

/-- The columns of the `Resume` model touched by the services under
verification.  `parsed_data` holds the stored parse dict (projected to the
keys the code reads); timestamps are idealised as natural numbers. -/
structure ResumeRec where
  id : String
  candidate_id : String
  extracted_text : Option String := none
  extraction_status : String := "pending"
  extraction_error : Option String := none
  parsed_data : Option ParsedResumeDict := none
  parsing_status : String := "pending"
  parsing_error : Option String := none
  parsed_at : Option Nat := none
deriving DecidableEq, Repr

/-- Embedding of `resume_service.update_extraction`: always set the status;
set the text only when one is given; set the error only when one is given
(the Python default for `status` is "completed"; callers always pass it
explicitly, so it is a plain argument here). -/
def update_extraction (r : ResumeRec) (text : Option String)
    (error : Option String) (status : String) : ResumeRec :=
  let r1 := { r with extraction_status := status }
  let r2 :=
    match text with
    | some t => { r1 with extracted_text := some t }
    | none => r1
  match error with
  | some e => { r2 with extraction_error := some e }
  | none => r2

/-- Embedding of `resume_service.update_parsing`: always set the status; set
the parsed data and the parse timestamp only when data is given; set the
error only when one is given. -/
def update_parsing (now : Nat) (r : ResumeRec) (parsed_data : Option ParsedResumeDict)
    (error : Option String) (status : String) : ResumeRec :=
  let r1 := { r with parsing_status := status }
  let r2 :=
    match parsed_data with
    | some d => { r1 with parsed_data := some d, parsed_at := some now }
    | none => r1
  match error with
  | some e => { r2 with parsing_error := some e }
  | none => r2

/-- C10: the status-update operations only write the fields they were given —
`update_extraction` with an error and no text leaves the stored extracted
text unchanged, `update_extraction` with text and no error leaves the stored
extraction error unchanged, and symmetrically for `update_parsing` with
parsed data and timestamp versus parsing error — so a failed re-attempt keeps
stale data from an earlier successful attempt next to the failed status. -/
theorem update_status_frame_spec :
    (∀ (r : ResumeRec) (e s : String),
      (update_extraction r none (some e) s).extracted_text = r.extracted_text
      ∧ (update_extraction r none (some e) s).extraction_status = s
      ∧ (update_extraction r none (some e) s).extraction_error = some e)
    ∧ (∀ (r : ResumeRec) (t s : String),
      (update_extraction r (some t) none s).extraction_error = r.extraction_error
      ∧ (update_extraction r (some t) none s).extracted_text = some t)
    ∧ (∀ (now : Nat) (r : ResumeRec) (e s : String),
      (update_parsing now r none (some e) s).parsed_data = r.parsed_data
      ∧ (update_parsing now r none (some e) s).parsed_at = r.parsed_at
      ∧ (update_parsing now r none (some e) s).parsing_status = s
      ∧ (update_parsing now r none (some e) s).parsing_error = some e)
    ∧ ∀ (now : Nat) (r : ResumeRec) (d : ParsedResumeDict) (s : String),
      (update_parsing now r (some d) none s).parsing_error = r.parsing_error
      ∧ (update_parsing now r (some d) none s).parsed_data = some d :=
  ⟨fun _ _ _ => ⟨rfl, rfl, rfl⟩, fun _ _ _ => ⟨rfl, rfl⟩,
    fun _ _ _ _ => ⟨rfl, rfl, rfl, rfl⟩, fun _ _ _ _ => ⟨rfl, rfl⟩⟩

/-! ### Resume parser, synchronous endpoints, and pipeline
Sources: the resume parser service (`parse_resume` under `src/app/services`),
`src/app/api/v1/resumes.py`,
`src/app/services/pipeline.py`.  The generative-text service is abstracted as
`service : String → Option String` (prompt to optional response text), the
`json.loads` plus `model_validate` deserialization as
`decode : String → Except String ParsedResumeData`, and the embedding service
as `embedFn : String → Except String (List ℝ)`. -/

/-- Modelled from the spec: the error taxonomy of section 7.  The classes
`PreconditionError` and `AIServiceError` are imported and raised by
`src/app/api/v1/resumes.py`, but their class definitions are absent from
`src/app/core/exceptions.py`; following the spec they are error kinds
carrying a detail message. -/
inductive ApiError where
  | notFound (resource id : String)
  | precondition (detail : String)
  | aiService (detail : String)
deriving DecidableEq, Repr

/-- The fixed instructional head of `PARSE_PROMPT`; the resume text is
appended where the format placeholder stands. -/
def parsePromptHead : String :=
  "You are a resume parser. Extract structured information "
    ++ "from the following resume text.\n"
    ++ "Be thorough — extract all skills, work experience, "
    ++ "and education entries.\n"
    ++ "If a field is not found, leave it as null or empty list.\n\n"
    ++ "Resume text:\n"

/-- `PARSE_PROMPT.format(text=extracted_text)`. -/
def parsePrompt (extracted_text : String) : String :=
  parsePromptHead ++ extracted_text

/-- Embedding of the service function `parse_resume`: one outbound generate call;
a missing or empty response text yields the all-defaults record; otherwise
the response is deserialized, and a deserialization failure propagates.
The second component counts outbound AI calls. -/
def parse_resume (service : String → Option String)
    (decode : String → Except String ParsedResumeData)
    (extracted_text : String) : Except String ParsedResumeData × Nat :=
  match service (parsePrompt extracted_text) with
  | none => (Except.ok {}, 1)
  | some raw => if raw = "" then (Except.ok {}, 1) else (decode raw, 1)

/-- The `chromadb_collection_resumes` setting (`src/app/core/config.py`). -/
def chromadb_collection_resumes : String := "resumes"

/-- One `vector_store.upsert` invocation, recorded with its arguments. -/
structure UpsertCall where
  collection : String
  doc_id : String
  text : String
  embedding : List ℝ
  metadata : List (String × String)

/-- Result of the synchronous parse endpoint: the HTTP outcome, the resume
row as left in the database, and the number of outbound AI calls. -/
structure ParseEndpointResult where
  outcome : Except ApiError ResumeRec
  dbState : ResumeRec
  aiCalls : Nat

/-- Embedding of `parse_resume_endpoint` for an existing resume (the
resume-id lookup and its NotFound branch are upstream of the claims, which
start from a fetched resume row): no extracted text fails the precondition
with no AI call; otherwise the parser runs, success stores the parse dict,
and failure stores the error and surfaces an `AIServiceError`. -/
def parse_resume_endpoint (now : Nat) (service : String → Option String)
    (decode : String → Except String ParsedResumeData) (r : ResumeRec) :
    ParseEndpointResult :=
  if truthyStr r.extracted_text then
    match parse_resume service decode (r.extracted_text.getD "") with
    | (Except.ok parsed, n) =>
        let r1 := update_parsing now r (some (dumpDict parsed)) none "completed"
        ⟨Except.ok r1, r1, n⟩
    | (Except.error e, n) =>
        let r1 := update_parsing now r none (some e) "failed"
        ⟨Except.error (ApiError.aiService e), r1, n⟩
  else
    ⟨Except.error
        (ApiError.precondition "Resume has no extracted text. Run extraction first."),
      r, 0⟩

/-- Result of the synchronous embed endpoint: the HTTP outcome, the upserts
performed on the vector store, and the number of outbound AI calls. -/
structure EmbedEndpointResult where
  outcome : Except ApiError ResumeRec
  upserts : List UpsertCall
  aiCalls : Nat

/-- Embedding of `embed_resume_endpoint` for an existing resume: no parsed
data fails the precondition with no AI call; otherwise the embedding of the
text built from the parsed data is generated and upserted with the raw
extracted text (`resume.extracted_text or ""`) as the stored text, and an
embedding failure surfaces an `AIServiceError`.  (The Python truthiness test
`not resume.parsed_data` also treats an empty dict as absent; a stored parse
dict is always a full `model_dump`, so absence is modelled as `none`.) -/
def embed_resume_endpoint (embedFn : String → Except String (List ℝ))
    (r : ResumeRec) : EmbedEndpointResult :=
  match r.parsed_data with
  | none =>
      ⟨Except.error (ApiError.precondition "Resume has no parsed data. Run parsing first."),
        [], 0⟩
  | some pd =>
      match embedFn (build_resume_text pd) with
      | Except.ok emb =>
          ⟨Except.ok r,
            [{ collection := chromadb_collection_resumes, doc_id := r.id,
               text := r.extracted_text.getD "", embedding := emb,
               metadata := [("candidate_id", r.candidate_id)] }],
            1⟩
      | Except.error e => ⟨Except.error (ApiError.aiService e), [], 1⟩

/-- Embedding of `process_resume_pipeline`: return early when the resume is
missing or has no extracted text; parse (recording success or failure on the
row); on parse success, embed the text built from the parsed dump and upsert
it with the raw extracted text as the stored text; an embedding failure is
logged only.  The result is the resume row as left in the database and the
list of upserts performed. -/
def process_resume_pipeline (now : Nat) (service : String → Option String)
    (decode : String → Except String ParsedResumeData)
    (embedFn : String → Except String (List ℝ)) (r : Option ResumeRec) :
    Option ResumeRec × List UpsertCall :=
  match r with
  | none => (none, [])
  | some resume =>
      if truthyStr resume.extracted_text then
        match parse_resume service decode (resume.extracted_text.getD "") with
        | (Except.ok parsed, _) =>
            let r1 := update_parsing now resume (some (dumpDict parsed)) none "completed"
            match embedFn (build_resume_text (dumpDict parsed)) with
            | Except.ok emb =>
                (some r1,
                  [{ collection := "resumes", doc_id := resume.id,
                     text := resume.extracted_text.getD "", embedding := emb,
                     metadata := [("candidate_id", resume.candidate_id)] }])
            | Except.error _ => (some r1, [])
        | (Except.error e, _) =>
            (some (update_parsing now resume none (some e) "failed"), [])
      else (some resume, [])

/-- C5: the synchronous parse endpoint on a resume without extracted text,
and the synchronous embed endpoint on a resume without parsed data, both fail
with a precondition error, make no outbound AI call, and leave the database
and the vector store untouched. -/
theorem precondition_endpoints_spec :
    (∀ (now : Nat) (service : String → Option String)
      (decode : String → Except String ParsedResumeData) (r : ResumeRec),
      truthyStr r.extracted_text = false →
      (parse_resume_endpoint now service decode r).outcome =
          Except.error
            (ApiError.precondition "Resume has no extracted text. Run extraction first.")
        ∧ (parse_resume_endpoint now service decode r).aiCalls = 0
        ∧ (parse_resume_endpoint now service decode r).dbState = r)
    ∧ ∀ (embedFn : String → Except String (List ℝ)) (r : ResumeRec),
      r.parsed_data = none →
      (embed_resume_endpoint embedFn r).outcome =
          Except.error
            (ApiError.precondition "Resume has no parsed data. Run parsing first.")
        ∧ (embed_resume_endpoint embedFn r).aiCalls = 0
        ∧ (embed_resume_endpoint embedFn r).upserts = [] := by
  constructor
  · intro now service decode r h
    simp [parse_resume_endpoint, h]
  · intro embedFn r h
    simp [embed_resume_endpoint, h]

/-- C5 witness: both precondition clauses applied to a fresh resume row with
neither extracted text nor parsed data. -/
theorem precondition_endpoints_spec_witness :
    truthyStr (ResumeRec.mk "r0" "c0" none "pending" none none "pending" none none).extracted_text
        = false
    ∧ (parse_resume_endpoint 0 (fun _ => none) (fun _ => Except.error "x")
        (ResumeRec.mk "r0" "c0" none "pending" none none "pending" none none)).aiCalls = 0
    ∧ (ResumeRec.mk "r0" "c0" none "pending" none none "pending" none none).parsed_data = none
    ∧ (embed_resume_endpoint (fun _ => Except.error "x")
        (ResumeRec.mk "r0" "c0" none "pending" none none "pending" none none)).aiCalls = 0 :=
  ⟨rfl,
    (precondition_endpoints_spec.1 0 (fun _ => none) (fun _ => Except.error "x")
      (ResumeRec.mk "r0" "c0" none "pending" none none "pending" none none) rfl).2.1,
    rfl,
    (precondition_endpoints_spec.2 (fun _ => Except.error "x")
      (ResumeRec.mk "r0" "c0" none "pending" none none "pending" none none) rfl).2.1⟩

/-- C6: the resume parser makes exactly one outbound generate call per
invocation; a missing or empty response text yields the all-defaults record
(null scalars, empty lists) rather than an error; a present but undecodable
response propagates the deserialization failure, which the synchronous parse
endpoint surfaces as an `AIServiceError`-class failure. -/
theorem parse_resume_service_spec :
    (∀ (service : String → Option String)
      (decode : String → Except String ParsedResumeData) (text : String),
      (parse_resume service decode text).2 = 1)
    ∧ (∀ (service : String → Option String)
      (decode : String → Except String ParsedResumeData) (text : String),
      service (parsePrompt text) = none →
      (parse_resume service decode text).1 = Except.ok emptyParsedResumeData)
    ∧ (∀ (service : String → Option String)
      (decode : String → Except String ParsedResumeData) (text : String),
      service (parsePrompt text) = some "" →
      (parse_resume service decode text).1 = Except.ok emptyParsedResumeData)
    ∧ (∀ (service : String → Option String)
      (decode : String → Except String ParsedResumeData) (text raw e : String),
      service (parsePrompt text) = some raw → raw ≠ "" →
      decode raw = Except.error e →
      (parse_resume service decode text).1 = Except.error e)
    ∧ ∀ (now : Nat) (service : String → Option String)
      (decode : String → Except String ParsedResumeData) (r : ResumeRec) (raw e : String),
      truthyStr r.extracted_text = true →
      service (parsePrompt (r.extracted_text.getD "")) = some raw → raw ≠ "" →
      decode raw = Except.error e →
      (parse_resume_endpoint now service decode r).outcome =
        Except.error (ApiError.aiService e) := by
  refine ⟨?_, ?_, ?_, ?_, ?_⟩
  · intro service decode text
    rcases h : service (parsePrompt text) with _ | raw
    · simp [parse_resume, h]
    · simp only [parse_resume, h]
      split <;> rfl
  · intro service decode text h
    simp [parse_resume, h, emptyParsedResumeData]
  · intro service decode text h
    simp [parse_resume, h, emptyParsedResumeData]
  · intro service decode text raw e hs hraw hd
    simp [parse_resume, hs, hraw, hd]
  · intro now service decode r raw e hx hs hraw hd
    have hp : parse_resume service decode (r.extracted_text.getD "") = (Except.error e, 1) := by
      unfold parse_resume
      rw [hs]
      simp [hraw, hd]
    simp [parse_resume_endpoint, hx, hp]

/-- C6 witness: the missing-response clause applied to a service that returns
no text. -/
theorem parse_resume_service_spec_witness :
    ((fun _ => none : String → Option String) (parsePrompt "T") = none)
    ∧ (parse_resume (fun _ => none) (fun _ => Except.error "bad") "T").1 =
        Except.ok emptyParsedResumeData :=
  ⟨rfl, parse_resume_service_spec.2.1 (fun _ => none) (fun _ => Except.error "bad") "T" rfl⟩

/-! ### C4: what text the resume upsert stores -/

/-- Concrete resume row for the C4 scenario: raw extracted text "RAW". -/
def c4Resume : ResumeRec :=
  { id := "r1", candidate_id := "c1", extracted_text := some "RAW" }

/-- Concrete generative service for the C4 scenario. -/
def c4Service : String → Option String := fun _ => some "J"

/-- Concrete deserializer for the C4 scenario: the parsed record has summary
"S", so the text built from the parsed fields is "S". -/
def c4Decode : String → Except String ParsedResumeData :=
  fun _ => Except.ok { summary := some "S" }

/-- Concrete embedding service for the C4 scenario, mapping distinct texts to
distinct vectors so the embedding reveals its source text. -/
noncomputable def c4EmbedFn : String → Except String (List ℝ) :=
  fun t => if t = "RAW" then Except.ok [0] else Except.ok [1]

/-- C4 counterexample: running the pipeline on the concrete scenario performs
one upsert whose stored text is the raw extracted text "RAW" while its
embedding is the embedding of the parsed-derived text "S" — so it is false
that the upsert stores the source text from which its embedding vector was
generated. -/
theorem pipeline_upsert_text_counterexample :
    (process_resume_pipeline 0 c4Service c4Decode c4EmbedFn (some c4Resume)).2 =
      [{ collection := "resumes", doc_id := "r1", text := "RAW",
         embedding := [1], metadata := [("candidate_id", "c1")] }]
    ∧ c4EmbedFn "RAW" = Except.ok [0]
    ∧ c4EmbedFn (build_resume_text (dumpDict { summary := some "S" })) = Except.ok [1]
    ∧ ¬ ∀ u ∈ (process_resume_pipeline 0 c4Service c4Decode c4EmbedFn (some c4Resume)).2,
          c4EmbedFn u.text = Except.ok u.embedding := by
  have hpipe : (process_resume_pipeline 0 c4Service c4Decode c4EmbedFn (some c4Resume)).2 =
      [{ collection := "resumes", doc_id := "r1", text := "RAW",
         embedding := [1], metadata := [("candidate_id", "c1")] }] := rfl
  refine ⟨hpipe, rfl, rfl, ?_⟩
  intro hall
  have hu := hall
    { collection := "resumes", doc_id := "r1", text := "RAW",
      embedding := [1], metadata := [("candidate_id", "c1")] }
    (by rw [hpipe]; exact List.mem_singleton_self _)
  have h0 : c4EmbedFn "RAW" = Except.ok [0] := rfl
  rw [h0] at hu
  simp only [Except.ok.injEq, List.cons.injEq, and_true] at hu
  exact zero_ne_one hu

/-- C4 amended: every vector-index upsert performed for a resume (by the
background pipeline and by the synchronous embed endpoint) stores the RAW
extracted text as the entry text, while the embedding vector is generated
from the text built from the parsed structured fields — the stored text is
the raw text, not the embedding source text. -/
theorem pipeline_upsert_raw_text
    (now : Nat) (service : String → Option String)
    (decode : String → Except String ParsedResumeData)
    (embedFn : String → Except String (List ℝ)) (r : ResumeRec)
    (parsed : ParsedResumeData) (emb : List ℝ)
    (hx : truthyStr r.extracted_text = true)
    (hp : parse_resume service decode (r.extracted_text.getD "") = (Except.ok parsed, 1))
    (he : embedFn (build_resume_text (dumpDict parsed)) = Except.ok emb) :
    (process_resume_pipeline now service decode embedFn (some r)).2 =
      [{ collection := "resumes", doc_id := r.id, text := r.extracted_text.getD "",
         embedding := emb, metadata := [("candidate_id", r.candidate_id)] }]
    ∧ (embed_resume_endpoint embedFn
        { r with parsed_data := some (dumpDict parsed) }).upserts =
      [{ collection := chromadb_collection_resumes, doc_id := r.id,
         text := r.extracted_text.getD "", embedding := emb,
         metadata := [("candidate_id", r.candidate_id)] }] := by
  constructor
  · simp only [process_resume_pipeline, hx, if_true, hp, he]
  · simp [embed_resume_endpoint, he]

/-- C4 witness: the amended theorem applied to the concrete C4 scenario. -/
theorem pipeline_upsert_raw_text_witness :
    truthyStr c4Resume.extracted_text = true
    ∧ (process_resume_pipeline 0 c4Service c4Decode c4EmbedFn (some c4Resume)).2 =
        [{ collection := "resumes", doc_id := c4Resume.id,
           text := c4Resume.extracted_text.getD "",
           embedding := [1], metadata := [("candidate_id", c4Resume.candidate_id)] }] :=
  ⟨rfl,
    (pipeline_upsert_raw_text 0 c4Service c4Decode c4EmbedFn c4Resume
      { summary := some "S" } [1] rfl rfl rfl).1⟩

/-! ### In-memory vector store
Source: `src/tests/mocks/mock_vector_store.py`, `InMemoryVectorStore`.
Python dicts are modelled as insertion-ordered association lists: assignment
updates an existing key in place or appends a fresh one, `pop(k, None)`
removes the key when present.  The store is kept polymorphic in the vector
element type; the search operation instantiates it at `ℝ`. -/

/-- `d[k] = v` on an insertion-ordered dict. -/
def dictSet {β : Type} : List (String × β) → String → β → List (String × β)
  | [], k, v => [(k, v)]
  | (k₀, v₀) :: rest, k, v =>
      if k₀ = k then (k, v) :: rest else (k₀, v₀) :: dictSet rest k v

/-- `d.get(k)` on an insertion-ordered dict. -/
def dictGet {β : Type} : List (String × β) → String → Option β
  | [], _ => none
  | (k₀, v₀) :: rest, k => if k₀ = k then some v₀ else dictGet rest k

/-- `d.pop(k, None)` on an insertion-ordered dict (result state). -/
def dictPop {β : Type} : List (String × β) → String → List (String × β)
  | [], _ => []
  | (k₀, v₀) :: rest, k => if k₀ = k then rest else (k₀, v₀) :: dictPop rest k

/-- One stored entry of the in-memory vector store:
`{"text": ..., "embedding": ..., "metadata": ...}`. -/
structure VectorEntry (α : Type) where
  text : String
  embedding : List α
  metadata : List (String × String)
deriving DecidableEq, Repr

/-- The `_data` dict of `InMemoryVectorStore`:
collection name to (doc id to entry). -/
abbrev Store (α : Type) : Type :=
  List (String × List (String × VectorEntry α))

/-- `self._data.get(collection, {})`. -/
def getColl {α : Type} (s : Store α) (c : String) : List (String × VectorEntry α) :=
  (dictGet s c).getD []

/-- Embedding of `InMemoryVectorStore.upsert`: create the collection when
absent, then assign the entry under the doc id (`metadata or {}` defaults a
missing metadata dict to the empty one). -/
def upsert {α : Type} (s : Store α) (c doc_id : String) (text : String)
    (embedding : List α) (metadata : Option (List (String × String))) : Store α :=
  dictSet s c (dictSet (getColl s c) doc_id
    { text := text, embedding := embedding, metadata := metadata.getD [] })

/-- Embedding of `InMemoryVectorStore.get`: the stored entry, or `none`. -/
def get {α : Type} (s : Store α) (c doc_id : String) : Option (VectorEntry α) :=
  dictGet (getColl s c) doc_id

/-- Embedding of `InMemoryVectorStore.delete`: pop the doc id from the
collection dict when the collection exists; otherwise nothing changes. -/
def delete {α : Type} (s : Store α) (c doc_id : String) : Store α :=
  match dictGet s c with
  | none => s
  | some coll => dictSet s c (dictPop coll doc_id)

/-- A dict invariant every Python dict satisfies by construction: its keys
are pairwise distinct. -/
def keysNodup {β : Type} (l : List (String × β)) : Prop :=
  (l.map Prod.fst).Nodup

/-- Auxiliary: reading back the key just assigned. -/
theorem dictGet_dictSet_self {β : Type} (l : List (String × β)) (k : String) (v : β) :
    dictGet (dictSet l k v) k = some v := by
  induction l with
  | nil => simp [dictSet, dictGet]
  | cons p rest ih =>
    obtain ⟨k₀, v₀⟩ := p
    by_cases h : k₀ = k
    · simp [dictSet, dictGet, h]
    · simp [dictSet, dictGet, h, ih]

/-- Auxiliary: a key that is not among the dict keys reads as `none`. -/
theorem dictGet_eq_none_of_not_mem {β : Type} (l : List (String × β)) (k : String)
    (h : k ∉ l.map Prod.fst) : dictGet l k = none := by
  induction l with
  | nil => rfl
  | cons p rest ih =>
    obtain ⟨k₀, v₀⟩ := p
    simp only [List.map_cons, List.mem_cons] at h
    push_neg at h
    have hk : ¬ k₀ = k := fun hh => h.1 hh.symm
    simp [dictGet, hk, ih h.2]

/-- Auxiliary: popping a key from a duplicate-free dict removes it. -/
theorem dictGet_dictPop_self {β : Type} (l : List (String × β)) (k : String)
    (h : keysNodup l) : dictGet (dictPop l k) k = none := by
  induction l with
  | nil => rfl
  | cons p rest ih =>
    obtain ⟨k₀, v₀⟩ := p
    unfold keysNodup at h
    simp only [List.map_cons, List.nodup_cons] at h
    by_cases hk : k₀ = k
    · subst hk
      simp [dictPop, dictGet_eq_none_of_not_mem rest k₀ h.1]
    · simp [dictPop, dictGet, hk, ih h.2]

/-- Auxiliary: popping an absent key is the identity. -/
theorem dictPop_of_get_none {β : Type} (l : List (String × β)) (k : String)
    (h : dictGet l k = none) : dictPop l k = l := by
  induction l with
  | nil => rfl
  | cons p rest ih =>
    obtain ⟨k₀, v₀⟩ := p
    by_cases hk : k₀ = k
    · simp [dictGet, hk] at h
    · simp only [dictGet, hk, if_false] at h
      simp [dictPop, hk, ih h]

/-- Auxiliary: re-assigning the value a key already holds is the identity. -/
theorem dictSet_of_get_some {β : Type} (l : List (String × β)) (k : String) (v : β)
    (h : dictGet l k = some v) : dictSet l k v = l := by
  induction l with
  | nil => simp [dictGet] at h
  | cons p rest ih =>
    obtain ⟨k₀, v₀⟩ := p
    by_cases hk : k₀ = k
    · simp only [dictGet, hk, if_pos] at h
      injection h with hv
      simp [dictSet, hk, hv]
    · simp only [dictGet, hk, if_false] at h
      simp [dictSet, hk, ih h]

/-- C7: upsert followed by get returns exactly the stored text, vector and
metadata; a later upsert under the same id replaces the earlier entry;
deleting the id makes get return `none` (for dicts with distinct keys, the
invariant every Python dict maintains); and deleting an absent id is a no-op
that leaves the store unchanged and never raises. -/
theorem vector_store_roundtrip_spec :
    (∀ (α : Type) (s : Store α) (c doc_id text : String) (v : List α)
      (m : List (String × String)),
      get (upsert s c doc_id text v (some m)) c doc_id =
        some { text := text, embedding := v, metadata := m })
    ∧ (∀ (α : Type) (s : Store α) (c doc_id t t₂ : String) (v v₂ : List α)
      (m m₂ : List (String × String)),
      get (upsert (upsert s c doc_id t v (some m)) c doc_id t₂ v₂ (some m₂)) c doc_id =
        some { text := t₂, embedding := v₂, metadata := m₂ })
    ∧ (∀ (α : Type) (s : Store α) (c doc_id : String),
      keysNodup (getColl s c) → get (delete s c doc_id) c doc_id = none)
    ∧ ∀ (α : Type) (s : Store α) (c doc_id : String),
      get s c doc_id = none → delete s c doc_id = s := by
  have hget : ∀ (α : Type) (s : Store α) (c doc_id text : String) (v : List α)
      (m : List (String × String)),
      get (upsert s c doc_id text v (some m)) c doc_id =
        some { text := text, embedding := v, metadata := m } := by
    intro α s c doc_id text v m
    unfold get upsert getColl
    rw [dictGet_dictSet_self]
    simp [dictGet_dictSet_self]
  refine ⟨hget, fun α s c doc_id t t₂ v v₂ m m₂ => hget α _ c doc_id t₂ v₂ m₂, ?_, ?_⟩
  · intro α s c doc_id h
    unfold get delete
    rcases hc : dictGet s c with _ | coll
    · show dictGet (getColl s c) doc_id = none
      unfold getColl
      rw [hc]
      rfl
    · show dictGet (getColl (dictSet s c (dictPop coll doc_id)) c) doc_id = none
      unfold getColl
      rw [dictGet_dictSet_self]
      show dictGet (dictPop coll doc_id) doc_id = none
      apply dictGet_dictPop_self
      unfold getColl at h
      rw [hc] at h
      exact h
  · intro α s c doc_id h
    unfold delete
    rcases hc : dictGet s c with _ | coll
    · rfl
    · unfold get getColl at h
      rw [hc] at h
      show dictSet s c (dictPop coll doc_id) = s
      rw [dictPop_of_get_none coll doc_id h]
      exact dictSet_of_get_some s c coll hc

/-- C7 witness: the delete-absent-id clause applied to the empty store. -/
theorem vector_store_roundtrip_spec_witness :
    get ([] : Store Nat) "c" "i" = none ∧ delete ([] : Store Nat) "c" "i" = [] :=
  ⟨rfl, vector_store_roundtrip_spec.2.2.2 Nat [] "c" "i" rfl⟩

/-! ### Cosine distance
Source: `src/tests/mocks/mock_vector_store.py`, `_cosine_distance`. -/

/-- `sum(x * y for x, y in zip(a, b))`. -/
noncomputable def dotProd (a b : List ℝ) : ℝ :=
  (List.zipWith (fun x y => x * y) a b).sum

/-- `sum(x * x for x in l)`. -/
noncomputable def sumOfSquares (l : List ℝ) : ℝ :=
  (l.map fun x => x * x).sum

/-- `math.sqrt(sum(x * x for x in l))`. -/
noncomputable def normOf (l : List ℝ) : ℝ :=
  Real.sqrt (sumOfSquares l)

/-- Embedding of `_cosine_distance`: maximum distance `2.0` when either norm
is zero, else one minus the similarity `dot / (norm_a * norm_b)`. -/
noncomputable def cosine_distance (a b : List ℝ) : ℝ :=
  if normOf a = 0 ∨ normOf b = 0 then 2
  else 1 - dotProd a b / (normOf a * normOf b)

theorem dotProd_cons (x y : ℝ) (a b : List ℝ) :
    dotProd (x :: a) (y :: b) = x * y + dotProd a b := rfl

theorem sumOfSquares_cons (x : ℝ) (l : List ℝ) :
    sumOfSquares (x :: l) = x * x + sumOfSquares l := rfl

theorem sumOfSquares_nonneg (l : List ℝ) : 0 ≤ sumOfSquares l := by
  induction l with
  | nil => simp [sumOfSquares]
  | cons x rest ih =>
    rw [sumOfSquares_cons]
    have := mul_self_nonneg x
    linarith

theorem sumOfSquares_eq_zero (l : List ℝ) (h : ∀ x ∈ l, x = 0) :
    sumOfSquares l = 0 := by
  induction l with
  | nil => simp [sumOfSquares]
  | cons x rest ih =>
    rw [sumOfSquares_cons, h x (List.mem_cons_self x rest),
      ih fun y hy => h y (List.mem_cons_of_mem x hy)]
    ring

/-- Auxiliary: the quadratic expansion of the squared norm of `a + t • b`
over equal-length lists. -/
theorem sumOfSquares_expand (t : ℝ) :
    ∀ (a b : List ℝ), a.length = b.length →
      sumOfSquares (List.zipWith (fun x y => x + t * y) a b) =
        sumOfSquares a + 2 * t * dotProd a b + t ^ 2 * sumOfSquares b := by
  intro a
  induction a with
  | nil =>
    intro b h
    have : b = [] := List.length_eq_zero.mp h.symm
    subst this
    simp [sumOfSquares, dotProd]
  | cons x rest ih =>
    intro b h
    rcases b with _ | ⟨y, brest⟩
    · simp at h
    · simp only [List.length_cons, Nat.succ_inj] at h
      simp only [List.zipWith_cons_cons, sumOfSquares_cons, dotProd_cons, ih brest h]
      ring

/-- Auxiliary: the Cauchy–Schwarz inequality for the list dot product. -/
theorem dotProd_sq_le (a b : List ℝ) (h : a.length = b.length) :
    dotProd a b ^ 2 ≤ sumOfSquares a * sumOfSquares b := by
  have key : ∀ t : ℝ,
      0 ≤ sumOfSquares b * (t * t) + (2 * dotProd a b) * t + sumOfSquares a := by
    intro t
    have h2 := sumOfSquares_nonneg (List.zipWith (fun x y => x + t * y) a b)
    rw [sumOfSquares_expand t a b h] at h2
    nlinarith [h2]
  have hd := discrim_le_zero key
  unfold discrim at hd
  nlinarith [hd]

/-- C9: `_cosine_distance` is total on equal-length vectors: it returns
exactly `2.0` when either input has zero magnitude, its result always lies in
`[0, 2]`, and in the branch that divides, the divisor (the product of the two
norms) is nonzero, so the division-by-zero case is unreachable. -/
theorem cosine_distance_spec (a b : List ℝ) (h : a.length = b.length) :
    (0 ≤ cosine_distance a b ∧ cosine_distance a b ≤ 2)
    ∧ (normOf a = 0 ∨ normOf b = 0 → cosine_distance a b = 2)
    ∧ ((∀ x ∈ a, x = 0) ∨ (∀ x ∈ b, x = 0) → cosine_distance a b = 2)
    ∧ (normOf a ≠ 0 → normOf b ≠ 0 →
        normOf a * normOf b ≠ 0
        ∧ cosine_distance a b = 1 - dotProd a b / (normOf a * normOf b)) := by
  have hzero : ∀ l : List ℝ, (∀ x ∈ l, x = 0) → normOf l = 0 := by
    intro l hl
    unfold normOf
    rw [sumOfSquares_eq_zero l hl, Real.sqrt_zero]
  by_cases hz : normOf a = 0 ∨ normOf b = 0
  · have h2 : cosine_distance a b = 2 := by
      unfold cosine_distance
      rw [if_pos hz]
    refine ⟨⟨by rw [h2]; norm_num, by rw [h2]⟩, fun _ => h2, fun _ => h2, ?_⟩
    intro ha hb
    rcases hz with hz | hz
    · exact absurd hz ha
    · exact absurd hz hb
  · push_neg at hz
    obtain ⟨ha, hb⟩ := hz
    have hsa : 0 ≤ sumOfSquares a := sumOfSquares_nonneg a
    have hsb : 0 ≤ sumOfSquares b := sumOfSquares_nonneg b
    have hna : 0 < normOf a :=
      lt_of_le_of_ne (Real.sqrt_nonneg _) (Ne.symm ha)
    have hnb : 0 < normOf b :=
      lt_of_le_of_ne (Real.sqrt_nonneg _) (Ne.symm hb)
    have hP : 0 < normOf a * normOf b := mul_pos hna hnb
    have hsq : (normOf a * normOf b) ^ 2 = sumOfSquares a * sumOfSquares b := by
      unfold normOf
      rw [mul_pow, Real.sq_sqrt hsa, Real.sq_sqrt hsb]
    have hcs : dotProd a b ^ 2 ≤ (normOf a * normOf b) ^ 2 := by
      rw [hsq]
      exact dotProd_sq_le a b h
    have hub : dotProd a b ≤ normOf a * normOf b := by nlinarith [hcs, hP]
    have hlb : -(normOf a * normOf b) ≤ dotProd a b := by nlinarith [hcs, hP]
    have heq : cosine_distance a b = 1 - dotProd a b / (normOf a * normOf b) := by
      unfold cosine_distance
      rw [if_neg]
      push_neg
      exact ⟨ha, hb⟩
    have hdiv_ub : dotProd a b / (normOf a * normOf b) ≤ 1 := (div_le_one hP).mpr hub
    have hdiv_lb : -1 ≤ dotProd a b / (normOf a * normOf b) := by
      rw [neg_le, ← neg_div]
      exact (div_le_one hP).mpr (by linarith [hlb])
    refine ⟨⟨by rw [heq]; linarith, by rw [heq]; linarith⟩, ?_, ?_, ?_⟩
    · intro hor
      rcases hor with hh | hh
      · exact absurd hh ha
      · exact absurd hh hb
    · intro hor
      rcases hor with hh | hh
      · exact absurd (hzero a hh) ha
      · exact absurd (hzero b hh) hb
    · intro _ _
      exact ⟨ne_of_gt hP, heq⟩

/-- C9 witness: the zero-magnitude clause applied to the concrete vectors
`[0]` and `[7]`. -/
theorem cosine_distance_spec_witness :
    ([(0 : ℝ)].length = [(7 : ℝ)].length)
    ∧ cosine_distance [(0 : ℝ)] [(7 : ℝ)] = 2 :=
  ⟨rfl,
    (cosine_distance_spec [(0 : ℝ)] [(7 : ℝ)] rfl).2.2.1
      (Or.inl fun x hx => by simpa using hx)⟩

/-! ### Vector store search
Source: `src/tests/mocks/mock_vector_store.py`, `InMemoryVectorStore.search`.
The stable Python `list.sort(key=...)` is modelled by `List.insertionSort`
under the distance comparison. -/

/-- One search result dict:
`{"id": ..., "distance": ..., "metadata": ..., "document": ...}`. -/
structure SearchResult where
  id : String
  distance : ℝ
  metadata : List (String × String)
  document : String

/-- The comparison used by `scored.sort(key=lambda x: x["distance"])`. -/
def distLE (x y : SearchResult) : Prop :=
  x.distance ≤ y.distance

noncomputable instance : DecidableRel distLE :=
  fun x y => Real.decidableLE x.distance y.distance

instance : IsTotal SearchResult distLE :=
  ⟨fun x y => le_total x.distance y.distance⟩

instance : IsTrans SearchResult distLE :=
  ⟨fun _ _ _ hxy hyz => le_trans hxy hyz⟩

/-- The scored dict built for one stored entry. -/
noncomputable def resultOf (query_embedding : List ℝ) (p : String × VectorEntry ℝ) :
    SearchResult :=
  { id := p.1, distance := cosine_distance query_embedding p.2.embedding,
    metadata := p.2.metadata, document := p.2.text }

/-- Embedding of `InMemoryVectorStore.search`: an empty or absent collection
returns the empty list; otherwise every entry is scored with its cosine
distance to the query, the scored list is stably sorted by ascending
distance, and the first `n_results` entries are returned. -/
noncomputable def search (s : Store ℝ) (c : String) (query_embedding : List ℝ)
    (n_results : Nat) : List SearchResult :=
  let coll := getColl s c
  if coll.isEmpty then []
  else (List.insertionSort distLE (coll.map (resultOf query_embedding))).take n_results

/-- C8: search returns at most `n_results` entries, in non-decreasing order
of distance (so of two stored vectors the one nearer the query is ranked
first); an empty or absent collection yields the empty list, never an error;
and when the limit covers the collection, the results are exactly the scored
entries, reordered. -/
theorem search_spec (s : Store ℝ) (c : String) (q : List ℝ) (n : Nat) :
    (search s c q n).length ≤ n
    ∧ List.Pairwise distLE (search s c q n)
    ∧ (getColl s c = [] → search s c q n = [])
    ∧ ((getColl s c).length ≤ n →
        List.Perm (search s c q n) ((getColl s c).map (resultOf q))) := by
  by_cases h : (getColl s c).isEmpty
  · have hc : getColl s c = [] := List.isEmpty_iff.mp h
    have hs : search s c q n = [] := by
      unfold search
      rw [if_pos h]
    refine ⟨by rw [hs]; simp, by rw [hs]; exact List.Pairwise.nil, fun _ => hs, ?_⟩
    intro _
    rw [hs, hc]
    simp
  · have hs : search s c q n =
        (List.insertionSort distLE ((getColl s c).map (resultOf q))).take n := by
      unfold search
      rw [if_neg h]
    refine ⟨?_, ?_, ?_, ?_⟩
    · rw [hs, List.length_take]
      exact min_le_left _ _
    · rw [hs]
      exact (List.sorted_insertionSort distLE _).sublist (List.take_sublist _ _)
    · intro hc
      rw [hc] at h
      simp at h
    · intro hn
      rw [hs, List.take_of_length_le]
      · exact List.perm_insertionSort distLE _
      · rw [List.length_insertionSort, List.length_map]
        exact hn

/-- C8 witness: search on the empty store returns the empty list. -/
theorem search_spec_witness :
    getColl ([] : Store ℝ) "resumes" = []
    ∧ search ([] : Store ℝ) "resumes" [] 5 = [] :=
  ⟨rfl, (search_spec [] "resumes" [] 5).2.2.1 rfl⟩

end HRHelper
